import Mathlib

/-
Verification of the notification daemon in `src/notifdaemon.rs` (end-rs).

The daemon state (`NotificationDaemon`) holds a config, a map of live
notifications, a bounded history list, a dbus connection and an id counter.
We embed the synchronous effect of each handler as a pure function on an
explicit state, returning the renderer pushes and signals it performs as a
list of events.  Non-blocking config acquisitions (`try_lock`) are modelled
by an explicit boolean saying whether the acquisition succeeds.
-/

namespace EndRs

/-- Modelled from the spec: the per-urgency timeout thresholds of the config
(`config.rs` is not part of the given source).  The spec states they are
expressed in seconds. -/
structure TimeoutConfig where
  low : Nat
  normal : Nat
  critical : Nat
  deriving DecidableEq

/-- Modelled from the spec: the parts of `Config` the daemon reads — the
timeout thresholds and the history cap `max_notifications`. -/
structure Config where
  timeout : TimeoutConfig
  max_notifications : Nat
  deriving DecidableEq

/-- The shapes of `zvariant::Value` that the daemon inspects inside `hints`:
`Value::Structure` (an inline image payload, represented by an opaque numeric
tag), `Value::U8` (the urgency level) and anything else. -/
inductive HintValue where
  | u8 (v : Nat)
  | struct (d : Nat)
  | other
  deriving DecidableEq

/-- The `hints` map of a notify call, as an association list. -/
abbrev Hints := List (String × HintValue)

/-- `hints.get(k)` on the hint map. -/
def hintsGet (hints : Hints) (k : String) : Option HintValue :=
  (hints.find? (fun p => p.1 == k)).map (fun p => p.2)

/-- The external icon collaborators `utils::save_icon` and `utils::find_icon`,
kept abstract: `save_icon` receives the inline payload and the notification
id, `find_icon` the icon name and the config; either may fail. -/
structure IconEnv where
  save_icon : Nat → Nat → Option String
  find_icon : String → Config → Option String

/-- Icon resolution chain of `notify` (notifdaemon.rs lines 65-84):
`hints.get("image_data")` run through `save_icon`, `.or_else` the same for
`"image-data"`, `.or_else` a `find_icon` lookup guarded by a non-empty
`app_name` with a fallback to the literal `app_icon`, `.unwrap_or_else` the
literal `app_icon`. -/
def resolveIcon (env : IconEnv) (hints : Hints) (app_icon app_name : String)
    (cfg : Config) (id : Nat) : String :=
  ((((hintsGet hints "image_data").bind (fun v =>
        match v with
        | HintValue.struct d => env.save_icon d id
        | _ => none)).orElse (fun _ =>
      (hintsGet hints "image-data").bind (fun v =>
        match v with
        | HintValue.struct d => env.save_icon d id
        | _ => none))).orElse (fun _ =>
      if app_name ≠ "" then
        (env.find_icon app_icon cfg).orElse (fun _ => some app_icon)
      else none)).getD app_icon

/-- One step of the preference chain as the spec words it: the inline image
payload stored under hint key `key`, successfully saved. -/
def inlinePayload (env : IconEnv) (hints : Hints) (key : String) (id : Nat) :
    Option String :=
  match hintsGet hints key with
  | some (HintValue.struct d) => env.save_icon d id
  | _ => none

/-- Icon preference order exactly as section 4.2 of the spec words it, first
success wins: (a) inline payload under "image_data", (b) inline payload under
"image-data", (c) theme/name lookup for `app_icon`, attempted only when
`app_name` is non-empty, falling back to the literal `app_icon` when the
lookup yields nothing, (d) the literal `app_icon`. -/
def resolveIconSpec (env : IconEnv) (hints : Hints) (app_icon app_name : String)
    (cfg : Config) (id : Nat) : String :=
  match inlinePayload env hints "image_data" id with
  | some s => s
  | none =>
    match inlinePayload env hints "image-data" id with
    | some s => s
    | none =>
      if app_name = "" then app_icon
      else
        match env.find_icon app_icon cfg with
        | some s => s
        | none => app_icon

/-- The urgency hint: `hints.get("urgency")` when it is a `Value::U8`
(notifdaemon.rs lines 88-91). -/
def urgencyOf (hints : Hints) : Option Nat :=
  (hintsGet hints "urgency").bind (fun v =>
    match v with
    | HintValue.u8 u => some u
    | _ => none)

/-- The rewrite of `expire_timeout` in `notify` (notifdaemon.rs lines 86-98):
a negative value is replaced by the urgency-selected config threshold times
1000, any other value is kept. -/
def effectiveTimeout (expire_timeout : Int) (hints : Hints) (cfg : Config) :
    Int :=
  if expire_timeout < 0 then
    match urgencyOf hints with
    | some 0 => (cfg.timeout.low : Int) * 1000
    | some 1 => (cfg.timeout.normal : Int) * 1000
    | some 2 => (cfg.timeout.critical : Int) * 1000
    | _ => (cfg.timeout.normal : Int) * 1000
  else expire_timeout

/-- A live notification record (struct `Notification`); the `JoinHandle` of
the timeout task is modelled as an opaque `Option Unit`. -/
structure Notification where
  app_name : String
  icon : String
  summary : String
  body : String
  actions : List (String × String)
  timeout_cancelled : Bool
  timeout_future : Option Unit
  deriving DecidableEq

/-- A history entry (struct `HistoryNotification`). -/
structure HistoryNotification where
  app_name : String
  icon : String
  summary : String
  body : String
  deriving DecidableEq

/-- The `notifications` map `HashMap<u32, Notification>`, as an association
list. -/
abbrev Store := List (Nat × Notification)

/-- `notifications.get(&id)` / presence test. -/
def storeGet : Store → Nat → Option Notification
  | [], _ => none
  | p :: s, id => if p.1 = id then some p.2 else storeGet s id

/-- `notifications.insert(id, n)`: overwrite in place when the key is
present, append otherwise. -/
def storeInsert (s : Store) (id : Nat) (n : Notification) : Store :=
  if (storeGet s id).isSome then
    s.map (fun p => if p.1 = id then (id, n) else p)
  else s ++ [(id, n)]

/-- `notifications.remove(&id)` on the state. -/
def storeRemove : Store → Nat → Store
  | [], _ => []
  | p :: s, id => if p.1 = id then storeRemove s id else p :: storeRemove s id

/-- The observable effects a handler performs: renderer pushes
(`eww_update_notifications`, `eww_close_notifications`,
`eww_update_history`, `eww_close_window`) and the dbus closure signal. -/
inductive Event where
  | update_notifications (active : Store)
  | close_notifications
  | update_history (h : List HistoryNotification)
  | notification_closed (id : Nat) (reason : Nat)
  | close_window (name : String)
  deriving DecidableEq

/-- The daemon state (struct `NotificationDaemon`, minus the connection). -/
structure Daemon where
  config : Config
  notifications : Store
  notifications_history : List HistoryNotification
  next_id : Nat
  deriving DecidableEq

/-- 2^32: `next_id` is a `u32` and wraps on overflow. -/
def u32Size : Nat := 2 ^ 32

/-- The actions vector built in `notify` (notifdaemon.rs lines 102-109):
`chunks(2)` turned into pairs, a missing element becoming the empty
string. -/
def chunkActions : List String → List (String × String)
  | [] => []
  | [k] => [(k, "")]
  | k :: v :: rest => (k, v) :: chunkActions rest

/-- History append of `notify` (notifdaemon.rs lines 117-122): push, then
remove the front entry when the length exceeds the cap. -/
def pushHistory (h : List HistoryNotification) (e : HistoryNotification)
    (cap : Nat) : List HistoryNotification :=
  let h2 := h ++ [e]
  if h2.length > cap then h2.eraseIdx 0 else h2

/-- What a `notify` call returns and does: the allocated id, the new daemon
state, the renderer events, and the millisecond duration of the spawned
timeout task when one is spawned. -/
structure NotifyResult where
  id : Nat
  daemon : Daemon
  events : List Event
  timer : Option Int
  deriving DecidableEq

/-- The synchronous effect of `notify` (notifdaemon.rs lines 47-161):
allocate the id, resolve the icon, rewrite the timeout, build the actions,
append to history with eviction, spawn the timeout task when the effective
timeout is non-zero, insert the record and push the active set. -/
def notify (env : IconEnv) (d : Daemon) (app_name : String) (replaces_id : Nat)
    (app_icon summary body : String) (actions : List String) (hints : Hints)
    (expire_timeout : Int) : NotifyResult :=
  let id := if replaces_id ≠ 0 then replaces_id else (d.next_id + 1) % u32Size
  let next_id := if replaces_id ≠ 0 then d.next_id else (d.next_id + 1) % u32Size
  let icon := resolveIcon env hints app_icon app_name d.config id
  let expire := effectiveTimeout expire_timeout hints d.config
  let acts := chunkActions actions
  let hist : HistoryNotification :=
    { app_name := app_name, icon := icon, summary := summary, body := body }
  let history := pushHistory d.notifications_history hist
    d.config.max_notifications
  let timer : Option Int := if expire ≠ 0 then some expire else none
  let join_handle : Option Unit := if expire ≠ 0 then some () else none
  let notif : Notification :=
    { app_name := app_name, icon := icon, summary := summary, body := body,
      actions := acts, timeout_cancelled := false,
      timeout_future := join_handle }
  let store := storeInsert d.notifications id notif
  { id := id,
    daemon := { d with notifications := store, notifications_history := history,
                       next_id := next_id },
    events := [Event.update_notifications store],
    timer := timer }

/-- The effect of `close_notification` (notifdaemon.rs lines 163-192).  The
record is removed first; only then is the config `try_lock` attempted, whose
outcome is the argument `config_free`.  On contention the handler returns the
generic failure; otherwise it pushes the updated active set, a close
directive when the set became empty, and the `NotificationClosed` signal with
reason 3. -/
def close_notification (d : Daemon) (id : Nat) (config_free : Bool) :
    Except String Unit × Daemon × List Event :=
  if (storeGet d.notifications id).isSome then
    let s := storeRemove d.notifications id
    let d2 := { d with notifications := s }
    if config_free then
      (Except.ok (), d2,
        [Event.update_notifications s]
          ++ (if s.isEmpty then [Event.close_notifications] else [])
          ++ [Event.notification_closed id 3])
    else
      (Except.error "Failed to lock config", d2, [])
  else (Except.ok (), d, [])

/-- The body of the spawned timeout task once its sleep elapses
(notifdaemon.rs lines 131-142): remove the id from the store; when a record
was present and the non-blocking config acquisition succeeds and the record
was not suppressed, push the updated active set and a close directive when
the set became empty. -/
def timerFire (s : Store) (id : Nat) (config_free : Bool) :
    Store × List Event :=
  match storeGet s id with
  | none => (s, [])
  | some notif =>
    let s2 := storeRemove s id
    (s2,
      if config_free then
        if notif.timeout_cancelled then []
        else
          Event.update_notifications s2
            :: (if s2.isEmpty then [Event.close_notifications] else [])
      else [])

/-- The effect of `disable_timeout` (notifdaemon.rs lines 296-302): set the
`timeout_cancelled` flag of the record with the given id, if any, and return
success. -/
def disable_timeout (s : Store) (id : Nat) : Except String Unit × Store :=
  (Except.ok (),
    s.map (fun p =>
      if p.1 = id then (p.1, { p.2 with timeout_cancelled := true }) else p))

/-- The locks of the daemon state. -/
inductive LockName where
  | store
  | config
  | history
  | connection
  deriving DecidableEq

/-- Lock acquisitions of `notify` in source order: `config.lock().await`
(line 64), `notifications_history.lock().await` (line 117),
`notifications.lock().await` (line 156). -/
def notifyLocks : List LockName :=
  [LockName.config, LockName.history, LockName.store]

/-- Lock acquisitions of `close_notification` in source order: store
(line 164), config try_lock (line 167), connection (line 180). -/
def close_notificationLocks : List LockName :=
  [LockName.store, LockName.config, LockName.connection]

/-- Lock acquisitions of `reply_close` in source order: store (line 253),
config try_lock (line 254). -/
def reply_closeLocks : List LockName := [LockName.store, LockName.config]

/-- Lock acquisitions of the spawned timeout task in source order: store
(line 132), config try_lock (line 134). -/
def timeoutTaskLocks : List LockName := [LockName.store, LockName.config]

/-- Lock acquisitions of `open_history` in source order: config try_lock
(line 209), history (line 217). -/
def open_historyLocks : List LockName := [LockName.config, LockName.history]

/-- Lock acquisitions of `close_history`: config try_lock (line 224). -/
def close_historyLocks : List LockName := [LockName.config]

/-- Lock acquisitions of `toggle_history` in source order: config try_lock
(line 238), history (line 246). -/
def toggle_historyLocks : List LockName := [LockName.config, LockName.history]

/-- Lock acquisitions of `disable_timeout`: store (line 297). -/
def disable_timeoutLocks : List LockName := [LockName.store]

/-- All operations of the daemon that acquire locks, by their acquisition
sequences. -/
def allOpLocks : List (List LockName) :=
  [notifyLocks, close_notificationLocks, reply_closeLocks, timeoutTaskLocks,
    open_historyLocks, close_historyLocks, toggle_historyLocks,
    disable_timeoutLocks]

/-- The arguments of one `notify` call. -/
structure NotifyCall where
  app_name : String
  replaces_id : Nat
  app_icon : String
  summary : String
  body : String
  actions : List String
  hints : Hints
  expire_timeout : Int
  deriving DecidableEq

/-- Run one bundled `notify` call. -/
def notifyCall (env : IconEnv) (d : Daemon) (c : NotifyCall) : NotifyResult :=
  notify env d c.app_name c.replaces_id c.app_icon c.summary c.body c.actions
    c.hints c.expire_timeout

/-- Run a sequence of `notify` calls, returning the final daemon state. -/
def runNotifies (env : IconEnv) (d : Daemon) : List NotifyCall → Daemon
  | [] => d
  | c :: rest => runNotifies env (notifyCall env d c).daemon rest

/-- The ids returned by a sequence of `notify` calls, in order. -/
def notifyIds (env : IconEnv) (d : Daemon) : List NotifyCall → List Nat
  | [] => []
  | c :: rest =>
    let r := notifyCall env d c
    r.id :: notifyIds env r.daemon rest

/-- A concrete config for witnesses. -/
def cfg0 : Config :=
  { timeout := { low := 5, normal := 10, critical := 0 },
    max_notifications := 10 }

/-- A concrete icon environment whose collaborators always fail. -/
def env0 : IconEnv :=
  { save_icon := fun _ _ => none, find_icon := fun _ _ => none }

/-- The freshly started daemon: empty store, empty history, counter at 0 so
that the first generated id is 1 (the constructor is outside the given
source; the start value is modelled from the spec). -/
def d0 : Daemon :=
  { config := cfg0, notifications := [], notifications_history := [],
    next_id := 0 }

/-- A concrete notification record for witnesses. -/
def n0 : Notification :=
  { app_name := "a", icon := "i", summary := "s", body := "b", actions := [],
    timeout_cancelled := false, timeout_future := none }

/-- A concrete `notify` call with `replaces_id = 0`. -/
def call0 : NotifyCall :=
  { app_name := "a", replaces_id := 0, app_icon := "i", summary := "s",
    body := "b", actions := [], hints := [], expire_timeout := 0 }

/-! Helper lemmas about the store operations. -/

theorem storeGet_nil (id : Nat) : storeGet [] id = none := rfl

theorem storeGet_cons (p : Nat × Notification) (s : Store) (id : Nat) :
    storeGet (p :: s) id = if p.1 = id then some p.2 else storeGet s id := rfl

theorem storeInsert_length_of_present (s : Store) (id : Nat)
    (n : Notification) (h : (storeGet s id).isSome) :
    (storeInsert s id n).length = s.length := by
  unfold storeInsert
  rw [if_pos h]
  exact List.length_map s _

theorem storeGet_insert_self (s : Store) (id : Nat) (n : Notification)
    (h : (storeGet s id).isSome) :
    storeGet (storeInsert s id n) id = some n := by
  induction s with
  | nil => simp [storeGet] at h
  | cons p s ih =>
    unfold storeInsert
    rw [if_pos h]
    by_cases hp : p.1 = id
    · simp [storeGet, hp]
    · have h2 : (storeGet s id).isSome := by
        simpa [storeGet_cons, hp] using h
      have ih2 := ih h2
      unfold storeInsert at ih2
      rw [if_pos h2] at ih2
      simpa [storeGet, hp] using ih2

/-- Claim C8: `close_notification` on an id absent from the Store is a
no-op: it returns success, leaves the daemon state (Store and history)
unchanged, performs no renderer push and emits no closure signal. -/
theorem c8_close_absent_noop (d : Daemon) (id : Nat) (config_free : Bool)
    (h : storeGet d.notifications id = none) :
    close_notification d id config_free = (Except.ok (), d, []) := by
  unfold close_notification
  rw [h]
  simp

theorem c8_witness :
    storeGet d0.notifications 7 = none
      ∧ close_notification d0 7 true = (Except.ok (), d0, []) :=
  ⟨rfl, c8_close_absent_noop d0 7 true rfl⟩

/-- Claim C1 fails on the code: with notification 1 present in the Store and
the config lock contended, `close_notification 1` returns the generic
operation-failed error, yet the record has already been removed from the
Store, so a mutation did occur before the error surfaced. -/
theorem c1_counterexample :
    (close_notification { d0 with notifications := [(1, n0)] } 1 false).1
        = Except.error "Failed to lock config"
      ∧ (close_notification { d0 with
            notifications := [(1, n0)] } 1 false).2.1.notifications = []
      ∧ ([] : Store) ≠ [(1, n0)] :=
  ⟨rfl, rfl, by simp⟩

/-- Claim C1 amended: when `close_notification id` fails with the
lock-contention (operation-failed) error for an id present in the Store, the
removal of that record has already happened; apart from that removal the
daemon state is unchanged and no renderer push and no signal occurs. -/
theorem c1_close_contention (d : Daemon) (id : Nat)
    (h : (storeGet d.notifications id).isSome) :
    (close_notification d id false).1 = Except.error "Failed to lock config"
      ∧ (close_notification d id false).2.1
        = { d with notifications := storeRemove d.notifications id }
      ∧ (close_notification d id false).2.2 = [] := by
  unfold close_notification
  rw [if_pos h]
  exact ⟨rfl, rfl, rfl⟩

theorem c1_witness :
    (storeGet ([(1, n0)] : Store) 1).isSome = true
      ∧ (close_notification { d0 with
            notifications := [(1, n0)] } 1 false).2.2 = [] :=
  ⟨rfl,
    (c1_close_contention { d0 with notifications := [(1, n0)] } 1 rfl).2.2⟩

/-- Claim C2 fails on the code: when the timer fires for a present record
whose suppression flag is not set but the non-blocking config acquisition
fails, the record is removed and yet no snapshot push happens, while the
claim promises a push whenever the flag is not set. -/
theorem c2_counterexample :
    storeGet [(1, n0)] 1 = some n0
      ∧ n0.timeout_cancelled = false
      ∧ (timerFire [(1, n0)] 1 false).1 = []
      ∧ (timerFire [(1, n0)] 1 false).2 = [] :=
  ⟨rfl, rfl, rfl, rfl⟩

/-- Claim C2 amended: when the timer fires and the id is present, the record
is removed from the Store unconditionally; the renderer push and the close
directive happen exactly when the suppression flag is not set and the
non-blocking config acquisition succeeds, and in that case the updated
snapshot is pushed, followed by a close directive when the set became
empty; otherwise both are skipped. -/
theorem c2_timer_fire (s : Store) (id : Nat) (config_free : Bool)
    (notif : Notification) (h : storeGet s id = some notif) :
    (timerFire s id config_free).1 = storeRemove s id
      ∧ (timerFire s id config_free).2
        = (if config_free = true ∧ notif.timeout_cancelled = false then
            Event.update_notifications (storeRemove s id)
              :: (if (storeRemove s id).isEmpty then
                    [Event.close_notifications]
                  else [])
          else []) := by
  unfold timerFire
  rw [h]
  refine ⟨rfl, ?_⟩
  cases config_free with
  | false => simp
  | true => cases hc : notif.timeout_cancelled <;> simp [hc]

theorem c2_witness :
    storeGet [(1, n0)] 1 = some n0
      ∧ (timerFire [(1, n0)] 1 true).1 = storeRemove [(1, n0)] 1
      ∧ (timerFire [(1, n0)] 1 true).2
        = [Event.update_notifications [], Event.close_notifications] := by
  have h := c2_timer_fire [(1, n0)] 1 true n0 rfl
  refine ⟨rfl, h.1, ?_⟩
  rw [h.2]
  rfl

/-- Claim C3 fails on the code: `notify` acquires the Config lock (line 64)
before the Store lock (line 156), so it is not true that every operation
taking both locks acquires Store first and Config second. -/
theorem c3_counterexample :
    ¬ (∀ t ∈ allOpLocks, LockName.store ∈ t → LockName.config ∈ t →
        t.indexOf LockName.store < t.indexOf LockName.config) := by
  decide

/-- Claim C3 amended: every operation that acquires both the Store lock and
the Config lock, apart from `notify`, acquires Store first and Config second
(`close_notification`, `reply_close` and the timeout task, whose config
acquisition is non-blocking); `notify` instead acquires Config first and
Store last. -/
theorem c3_lock_order :
    (∀ t ∈ allOpLocks, t ≠ notifyLocks → LockName.store ∈ t →
        LockName.config ∈ t →
        t.indexOf LockName.store < t.indexOf LockName.config)
      ∧ notifyLocks.indexOf LockName.config
        < notifyLocks.indexOf LockName.store := by
  decide

theorem c3_witness :
    close_notificationLocks.indexOf LockName.store
      < close_notificationLocks.indexOf LockName.config :=
  c3_lock_order.1 close_notificationLocks (by decide) (by decide) (by decide)
    (by decide)

/-- Claim C10: `disable_timeout` always returns success, also for an absent
id; it never inserts or removes a record (the key sequence is unchanged);
every record with a different id is untouched; and the record with the given
id, when present, changes in its `timeout_cancelled` flag only. -/
theorem c10_disable_timeout (s : Store) (id : Nat) :
    (disable_timeout s id).1 = Except.ok ()
      ∧ (disable_timeout s id).2.map Prod.fst = s.map Prod.fst
      ∧ (∀ j, j ≠ id →
          storeGet (disable_timeout s id).2 j = storeGet s j)
      ∧ storeGet (disable_timeout s id).2 id
        = (storeGet s id).map
            (fun n => { n with timeout_cancelled := true }) := by
  refine ⟨rfl, ?_, ?_, ?_⟩
  · show (s.map _).map Prod.fst = s.map Prod.fst
    rw [List.map_map]
    apply List.map_congr_left
    intro p _
    by_cases hp : p.1 = id <;> simp [hp]
  · intro j hj
    show storeGet (s.map _) j = storeGet s j
    induction s with
    | nil => rfl
    | cons p s ih =>
      by_cases hp : p.1 = id
      · have hij : ¬ id = j := fun hx => hj hx.symm
        simpa [List.map_cons, storeGet_cons, hp, hij] using ih
      · by_cases hpj : p.1 = j
        · simp [List.map_cons, storeGet_cons, hp, hpj, hj]
        · simpa [List.map_cons, storeGet_cons, hp, hpj] using ih
  · show storeGet (s.map _) id
      = (storeGet s id).map (fun n => { n with timeout_cancelled := true })
    induction s with
    | nil => rfl
    | cons p s ih =>
      by_cases hp : p.1 = id
      · simp [List.map_cons, storeGet_cons, hp]
      · simpa [List.map_cons, storeGet_cons, hp] using ih

theorem c10_witness :
    (disable_timeout [(1, n0), (2, n0)] 1).1 = Except.ok ()
      ∧ ((disable_timeout [(1, n0), (2, n0)] 1).2.map Prod.fst
          = ([(1, n0), (2, n0)] : Store).map Prod.fst)
      ∧ storeGet (disable_timeout [(1, n0), (2, n0)] 1).2 2
        = storeGet [(1, n0), (2, n0)] 2
      ∧ storeGet (disable_timeout [(1, n0), (2, n0)] 1).2 1
        = some { n0 with timeout_cancelled := true } := by
  have h := c10_disable_timeout [(1, n0), (2, n0)] 1
  exact ⟨h.1, h.2.1, h.2.2.1 2 (by decide), h.2.2.2⟩

/-- Claim C6: for every `notify` call, a negative `expire_timeout` is
replaced by the config threshold selected by the urgency hint (0 selects
low, 1 or an absent/unrecognized hint selects normal, 2 selects critical),
in seconds times 1000 to give milliseconds; a removal timer is spawned
exactly when the effective timeout is non-zero, so `expire_timeout = 0`
schedules nothing, and a positive `expire_timeout` is used literally as the
timer duration in milliseconds with no scaling. -/
theorem c6_timeout_policy (env : IconEnv) (d : Daemon) (app_name : String)
    (replaces_id : Nat) (app_icon summary body : String)
    (actions : List String) (hints : Hints) (e : Int) :
    effectiveTimeout e hints d.config
        = (if e < 0 then
            (match urgencyOf hints with
              | some 0 => (d.config.timeout.low : Int)
              | some 1 => (d.config.timeout.normal : Int)
              | some 2 => (d.config.timeout.critical : Int)
              | _ => (d.config.timeout.normal : Int)) * 1000
          else e)
      ∧ (notify env d app_name replaces_id app_icon summary body actions
            hints e).timer
        = (if effectiveTimeout e hints d.config = 0 then none
          else some (effectiveTimeout e hints d.config)) := by
  constructor
  · unfold effectiveTimeout
    by_cases he : e < 0
    · rw [if_pos he, if_pos he]
      cases hu : urgencyOf hints with
      | none => rfl
      | some u =>
        rcases u with _ | _ | _ | u <;> rfl
    · rw [if_neg he, if_neg he]
  · show (if effectiveTimeout e hints d.config ≠ 0 then
        some (effectiveTimeout e hints d.config) else none) = _
    by_cases h0 : effectiveTimeout e hints d.config = 0
    · rw [if_pos h0, if_neg (by simpa using h0)]
    · rw [if_neg h0, if_pos h0]

/-- Claim C9: the icon resolution chain of `notify` equals the preference
order as the spec words it — (a) inline payload under hint key "image_data",
(b) inline payload under "image-data", (c) a `find_icon` lookup attempted
only when `app_name` is non-empty, falling back to the literal `app_icon`
when it yields nothing, (d) the literal `app_icon`; first success wins, so
inline pixel data always outranks the name lookup. -/
theorem c9_icon_order (env : IconEnv) (hints : Hints)
    (app_icon app_name : String) (cfg : Config) (id : Nat) :
    resolveIcon env hints app_icon app_name cfg id
      = resolveIconSpec env hints app_icon app_name cfg id := by
  unfold resolveIcon resolveIconSpec inlinePayload
  cases h1 : hintsGet hints "image_data" with
  | some v =>
    cases v with
    | struct dta =>
      cases h2 : env.save_icon dta id with
      | some s => simp [*, Option.orElse]
      | none =>
        cases h3 : hintsGet hints "image-data" with
        | some w =>
          cases w with
          | struct dtb =>
            cases h4 : env.save_icon dtb id with
            | some s => simp [*, Option.orElse]
            | none =>
              by_cases h5 : app_name = ""
              · simp [*, Option.orElse]
              · cases h6 : env.find_icon app_icon cfg <;>
                  simp [*, Option.orElse]
          | u8 u =>
            by_cases h5 : app_name = ""
            · simp [*, Option.orElse]
            · cases h6 : env.find_icon app_icon cfg <;>
                simp [*, Option.orElse]
          | other =>
            by_cases h5 : app_name = ""
            · simp [*, Option.orElse]
            · cases h6 : env.find_icon app_icon cfg <;>
                simp [*, Option.orElse]
        | none =>
          by_cases h5 : app_name = ""
          · simp [*, Option.orElse]
          · cases h6 : env.find_icon app_icon cfg <;>
              simp [*, Option.orElse]
    | u8 u =>
      cases h3 : hintsGet hints "image-data" with
      | some w =>
        cases w with
        | struct dtb =>
          cases h4 : env.save_icon dtb id with
          | some s => simp [*, Option.orElse]
          | none =>
            by_cases h5 : app_name = ""
            · simp [*, Option.orElse]
            · cases h6 : env.find_icon app_icon cfg <;>
                simp [*, Option.orElse]
        | u8 u2 =>
          by_cases h5 : app_name = ""
          · simp [*, Option.orElse]
          · cases h6 : env.find_icon app_icon cfg <;>
              simp [*, Option.orElse]
        | other =>
          by_cases h5 : app_name = ""
          · simp [*, Option.orElse]
          · cases h6 : env.find_icon app_icon cfg <;>
              simp [*, Option.orElse]
      | none =>
        by_cases h5 : app_name = ""
        · simp [*, Option.orElse]
        · cases h6 : env.find_icon app_icon cfg <;>
            simp [*, Option.orElse]
    | other =>
      cases h3 : hintsGet hints "image-data" with
      | some w =>
        cases w with
        | struct dtb =>
          cases h4 : env.save_icon dtb id with
          | some s => simp [*, Option.orElse]
          | none =>
            by_cases h5 : app_name = ""
            · simp [*, Option.orElse]
            · cases h6 : env.find_icon app_icon cfg <;>
                simp [*, Option.orElse]
        | u8 u2 =>
          by_cases h5 : app_name = ""
          · simp [*, Option.orElse]
          · cases h6 : env.find_icon app_icon cfg <;>
              simp [*, Option.orElse]
        | other =>
          by_cases h5 : app_name = ""
          · simp [*, Option.orElse]
          · cases h6 : env.find_icon app_icon cfg <;>
              simp [*, Option.orElse]
      | none =>
        by_cases h5 : app_name = ""
        · simp [*, Option.orElse]
        · cases h6 : env.find_icon app_icon cfg <;>
            simp [*, Option.orElse]
  | none =>
    cases h3 : hintsGet hints "image-data" with
    | some w =>
      cases w with
      | struct dtb =>
        cases h4 : env.save_icon dtb id with
        | some s => simp [*, Option.orElse]
        | none =>
          by_cases h5 : app_name = ""
          · simp [*, Option.orElse]
          · cases h6 : env.find_icon app_icon cfg <;>
              simp [*, Option.orElse]
      | u8 u2 =>
        by_cases h5 : app_name = ""
        · simp [*, Option.orElse]
        · cases h6 : env.find_icon app_icon cfg <;>
            simp [*, Option.orElse]
      | other =>
        by_cases h5 : app_name = ""
        · simp [*, Option.orElse]
        · cases h6 : env.find_icon app_icon cfg <;>
            simp [*, Option.orElse]
    | none =>
      by_cases h5 : app_name = ""
      · simp [*, Option.orElse]
      · cases h6 : env.find_icon app_icon cfg <;>
          simp [*, Option.orElse]

/-! Helper lemmas about `notify` runs, the history bound and id
allocation. -/

theorem eraseIdx_zero_eq_tail {α : Type} (l : List α) :
    l.eraseIdx 0 = l.tail := by
  cases l <;> rfl

theorem notifyCall_config (env : IconEnv) (d : Daemon) (c : NotifyCall) :
    (notifyCall env d c).daemon.config = d.config := rfl

theorem notifyCall_history (env : IconEnv) (d : Daemon) (c : NotifyCall) :
    (notifyCall env d c).daemon.notifications_history
      = pushHistory d.notifications_history
          { app_name := c.app_name,
            icon := resolveIcon env c.hints c.app_icon c.app_name d.config
              (if c.replaces_id ≠ 0 then c.replaces_id
                else (d.next_id + 1) % u32Size),
            summary := c.summary, body := c.body }
          d.config.max_notifications := rfl

/-- The notification record inserted by a `notify` call. -/
def notifRecord (env : IconEnv) (d : Daemon) (c : NotifyCall) : Notification :=
  { app_name := c.app_name,
    icon := resolveIcon env c.hints c.app_icon c.app_name d.config
      (if c.replaces_id ≠ 0 then c.replaces_id
        else (d.next_id + 1) % u32Size),
    summary := c.summary, body := c.body,
    actions := chunkActions c.actions,
    timeout_cancelled := false,
    timeout_future :=
      if effectiveTimeout c.expire_timeout c.hints d.config ≠ 0 then some ()
      else none }

theorem notifyCall_store (env : IconEnv) (d : Daemon) (c : NotifyCall) :
    (notifyCall env d c).daemon.notifications
      = storeInsert d.notifications
          (if c.replaces_id ≠ 0 then c.replaces_id
            else (d.next_id + 1) % u32Size)
          (notifRecord env d c) := rfl

theorem pushHistory_length_le (h : List HistoryNotification)
    (e : HistoryNotification) (cap : Nat) (hb : h.length ≤ cap) :
    (pushHistory h e cap).length ≤ cap := by
  unfold pushHistory
  by_cases hc : (h ++ [e]).length > cap
  · rw [if_pos hc, eraseIdx_zero_eq_tail, List.length_tail]
    simp only [List.length_append, List.length_cons, List.length_nil]
    omega
  · rw [if_neg hc]
    simp only [List.length_append, List.length_cons, List.length_nil] at hc ⊢
    omega

theorem pushHistory_shape (h : List HistoryNotification)
    (e : HistoryNotification) (cap : Nat) :
    (h.length + 1 ≤ cap ∧ pushHistory h e cap = h ++ [e])
      ∨ (cap < h.length + 1 ∧ pushHistory h e cap = (h ++ [e]).tail) := by
  unfold pushHistory
  by_cases hc : (h ++ [e]).length > cap
  · refine Or.inr ⟨?_, ?_⟩
    · simp only [List.length_append, List.length_cons, List.length_nil] at hc
      omega
    · rw [if_pos hc, eraseIdx_zero_eq_tail]
  · refine Or.inl ⟨?_, ?_⟩
    · simp only [List.length_append, List.length_cons, List.length_nil] at hc
      omega
    · rw [if_neg hc]

theorem runNotifies_history_le (env : IconEnv) (calls : List NotifyCall) :
    ∀ d : Daemon,
      d.notifications_history.length ≤ d.config.max_notifications →
      (runNotifies env d calls).notifications_history.length
        ≤ d.config.max_notifications := by
  induction calls with
  | nil => exact fun d hb => hb
  | cons c rest ih =>
    intro d hb
    have hb2 : (notifyCall env d c).daemon.notifications_history.length
        ≤ (notifyCall env d c).daemon.config.max_notifications := by
      rw [notifyCall_config, notifyCall_history]
      exact pushHistory_length_le _ _ _ hb
    have h3 := ih (notifyCall env d c).daemon hb2
    rwa [notifyCall_config] at h3

/-- Claim C4: across any sequence of `notify` calls the history length never
exceeds the configured cap `max_notifications`; each single `notify` appends
exactly one entry, and when that append makes the length exceed the cap,
exactly the oldest (front) entry is removed. -/
theorem c4_history_cap (env : IconEnv) (d : Daemon) (calls : List NotifyCall)
    (hb : d.notifications_history.length ≤ d.config.max_notifications) :
    (runNotifies env d calls).notifications_history.length
        ≤ d.config.max_notifications
      ∧ ∀ c : NotifyCall, ∃ e : HistoryNotification,
          (d.notifications_history.length + 1 ≤ d.config.max_notifications
              ∧ (notifyCall env d c).daemon.notifications_history
                = d.notifications_history ++ [e])
            ∨ (d.config.max_notifications < d.notifications_history.length + 1
              ∧ (notifyCall env d c).daemon.notifications_history
                = (d.notifications_history ++ [e]).tail) := by
  refine ⟨runNotifies_history_le env calls d hb, ?_⟩
  intro c
  refine ⟨{ app_name := c.app_name,
            icon := resolveIcon env c.hints c.app_icon c.app_name d.config
              (if c.replaces_id ≠ 0 then c.replaces_id
                else (d.next_id + 1) % u32Size),
            summary := c.summary, body := c.body }, ?_⟩
  rw [notifyCall_history]
  exact pushHistory_shape d.notifications_history _ d.config.max_notifications

theorem c4_witness :
    (runNotifies env0 d0 [call0, call0]).notifications_history.length
      ≤ d0.config.max_notifications :=
  (c4_history_cap env0 d0 [call0, call0] (by decide)).1

theorem notify_id_zero (env : IconEnv) (d : Daemon) (c : NotifyCall)
    (h : c.replaces_id = 0) :
    (notifyCall env d c).id = (d.next_id + 1) % u32Size
      ∧ (notifyCall env d c).daemon.next_id = (d.next_id + 1) % u32Size := by
  constructor <;> simp [notifyCall, notify, h]

theorem notifyIds_all_zero (env : IconEnv) :
    ∀ (calls : List NotifyCall) (d : Daemon),
      (∀ c ∈ calls, c.replaces_id = 0) →
      notifyIds env d calls
        = (List.range calls.length).map
            (fun k => (d.next_id + k + 1) % u32Size) := by
  intro calls
  induction calls with
  | nil => intro d hz; rfl
  | cons c rest ih =>
    intro d hz
    have hc : c.replaces_id = 0 := hz c (List.mem_cons_self c rest)
    have hrest : ∀ x ∈ rest, x.replaces_id = 0 :=
      fun x hx => hz x (List.mem_cons_of_mem c hx)
    show (notifyCall env d c).id
        :: notifyIds env (notifyCall env d c).daemon rest = _
    rw [(notify_id_zero env d c hc).1, ih (notifyCall env d c).daemon hrest,
      (notify_id_zero env d c hc).2]
    rw [List.length_cons, List.range_succ_eq_map, List.map_cons, List.map_map]
    congr 1
    apply List.map_congr_left
    intro k hk
    simp only [Function.comp_apply, u32Size, Nat.succ_eq_add_one]
    omega

/-- Claim C5 fails on the code: `next_id` is a `u32` and wraps on overflow,
so after 2^32 allocating calls (each with `replaces_id = 0`, the counter
starting at 0) the daemon issues id 0, which the claim says is never
issued — and strict increase fails at that same call. -/
theorem c5_counterexample :
    0 ∈ notifyIds env0 d0 (List.replicate u32Size call0) := by
  have hz : ∀ c ∈ List.replicate u32Size call0, c.replaces_id = 0 := by
    intro c hc
    rw [List.eq_of_mem_replicate hc]
    rfl
  rw [notifyIds_all_zero env0 (List.replicate u32Size call0) d0 hz,
    List.length_replicate]
  refine List.mem_map.mpr ⟨u32Size - 1, List.mem_range.mpr ?_, ?_⟩
  · norm_num [u32Size]
  · show (d0.next_id + (u32Size - 1) + 1) % u32Size = 0
    norm_num [d0, u32Size]

/-- Claim C5 amended: for any sequence of fewer than 2^32 `notify` calls
with `replaces_id = 0` from the fresh daemon (counter at 0), the returned
ids are 1, 2, 3, …, hence strictly increasing and pairwise distinct, the
first generated id is 1 and id 0 is never issued; beyond 2^32 - 1 calls the
`u32` counter wraps.  A call with `replaces_id ≠ 0` returns `replaces_id`
itself. -/
theorem c5_id_allocation (env : IconEnv) (d : Daemon) (calls : List NotifyCall)
    (h0 : d.next_id = 0) (hz : ∀ c ∈ calls, c.replaces_id = 0)
    (hn : calls.length ≤ u32Size - 1) :
    notifyIds env d calls = (List.range calls.length).map (fun k => k + 1)
      ∧ (notifyIds env d calls).Pairwise (fun a b => a < b)
      ∧ (notifyIds env d calls).Nodup
      ∧ 0 ∉ notifyIds env d calls
      ∧ (calls = [] ∨ (notifyIds env d calls).head? = some 1)
      ∧ (∀ c : NotifyCall, c.replaces_id ≠ 0 →
          (notifyCall env d c).id = c.replaces_id) := by
  have hpos : (0:Nat) < u32Size := by norm_num [u32Size]
  have hmain : notifyIds env d calls
      = (List.range calls.length).map (fun k => k + 1) := by
    rw [notifyIds_all_zero env calls d hz, h0]
    apply List.map_congr_left
    intro k hk
    have hk2 : k < calls.length := List.mem_range.mp hk
    have hlt : k + 1 < u32Size := by omega
    rw [Nat.zero_add]
    exact Nat.mod_eq_of_lt hlt
  have hpair : (notifyIds env d calls).Pairwise (fun a b => a < b) := by
    rw [hmain]
    exact List.Pairwise.map _ (fun a b hab => Nat.add_lt_add_right hab 1)
      (List.pairwise_lt_range calls.length)
  refine ⟨hmain, hpair, ?_, ?_, ?_, ?_⟩
  · exact List.Pairwise.imp (fun hab => Nat.ne_of_lt hab) hpair
  · rw [hmain]
    intro hmem
    rcases List.mem_map.mp hmem with ⟨k, _, hk⟩
    omega
  · cases calls with
    | nil => exact Or.inl rfl
    | cons c rest =>
      refine Or.inr ?_
      rw [hmain]
      rw [List.length_cons, List.range_succ_eq_map]
      rfl
  · intro c hc
    simp [notifyCall, notify, hc]

theorem c5_witness :
    notifyIds env0 d0 [call0, call0] = [1, 2]
      ∧ (notifyCall env0 d0 { call0 with replaces_id := 5 }).id = 5 := by
  have h := c5_id_allocation env0 d0 [call0, call0] rfl (by decide)
    (by norm_num [u32Size])
  refine ⟨?_, h.2.2.2.2.2 { call0 with replaces_id := 5 } (by decide)⟩
  rw [h.1]
  rfl

/-- Claim C7: a `notify` call with `replaces_id = K` for a K present in the
Store returns K, overwrites that entry wholesale (the Store afterwards holds
a record with the new call data under K) with the Store size unchanged, and
still appends a new, independent history entry (with the usual oldest-first
eviction, never deduplicated against the replacement). -/
theorem c7_replace (env : IconEnv) (d : Daemon) (c : NotifyCall)
    (hk : c.replaces_id ≠ 0)
    (hp : (storeGet d.notifications c.replaces_id).isSome) :
    (notifyCall env d c).id = c.replaces_id
      ∧ (notifyCall env d c).daemon.notifications.length
        = d.notifications.length
      ∧ (∃ m, storeGet (notifyCall env d c).daemon.notifications
              c.replaces_id = some m
          ∧ m.app_name = c.app_name ∧ m.summary = c.summary
          ∧ m.body = c.body ∧ m.timeout_cancelled = false)
      ∧ ∃ e : HistoryNotification,
          (notifyCall env d c).daemon.notifications_history
              = d.notifications_history ++ [e]
            ∨ (notifyCall env d c).daemon.notifications_history
              = (d.notifications_history ++ [e]).tail := by
  refine ⟨by simp [notifyCall, notify, hk], ?_, ?_, ?_⟩
  · rw [notifyCall_store, if_pos hk]
    exact storeInsert_length_of_present _ _ _ hp
  · refine ⟨notifRecord env d c, ?_, rfl, rfl, rfl, rfl⟩
    rw [notifyCall_store, if_pos hk]
    exact storeGet_insert_self _ _ _ hp
  · refine ⟨{ app_name := c.app_name,
              icon := resolveIcon env c.hints c.app_icon c.app_name d.config
                (if c.replaces_id ≠ 0 then c.replaces_id
                  else (d.next_id + 1) % u32Size),
              summary := c.summary, body := c.body }, ?_⟩
    rw [notifyCall_history]
    rcases pushHistory_shape d.notifications_history
        { app_name := c.app_name,
          icon := resolveIcon env c.hints c.app_icon c.app_name d.config
            (if c.replaces_id ≠ 0 then c.replaces_id
              else (d.next_id + 1) % u32Size),
          summary := c.summary, body := c.body }
        d.config.max_notifications with ⟨_, h⟩ | ⟨_, h⟩
    · exact Or.inl h
    · exact Or.inr h

theorem c7_witness :
    (notifyCall env0 { d0 with notifications := [(5, n0)] }
        { call0 with replaces_id := 5 }).id = 5
      ∧ (notifyCall env0 { d0 with notifications := [(5, n0)] }
          { call0 with replaces_id := 5 }).daemon.notifications.length
        = 1 := by
  have h := c7_replace env0 { d0 with notifications := [(5, n0)] }
    { call0 with replaces_id := 5 } (by decide) (by decide)
  exact ⟨h.1, h.2.1⟩

end EndRs
